import Mathlib

/-
Verification development for the grice dynamic query engine
(`grice/db_service.py`).  The Python functions are shallowly embedded as
executable Lean definitions: SQLAlchemy query objects become the `Select`
record, SQLAlchemy boolean expressions become the `Expr` inductive, Python
exceptions become `Except`/`Option` results, and query execution against a
database is modelled by `execSelect` over an association-list database.
Column types are restricted to the tags the engine's claims exercise
(boolean, integer, text); Python string primitives (`split`, `strip`,
`lower`, `int()`) are re-implemented over character lists so that every
definition evaluates inside the kernel.
-/

namespace Grice

/-! ### Python string primitives, modelled over character lists -/

/-- Characters treated as whitespace by `str.strip()` (ASCII subset). -/
def pyIsSpace (c : Char) : Bool :=
  c = ' ' || c = '\t' || c = '\n' || c = '\r'

/-- Python `str.strip()`: drop leading and trailing whitespace. -/
def pyStrip (s : String) : String :=
  String.mk (((s.data.dropWhile pyIsSpace).reverse.dropWhile pyIsSpace).reverse)

/-- Split a character list on a single separator character; Python
`str.split(sep)` semantics for a one-character separator (never returns an
empty list; `""` splits to `[""]`). -/
def splitOnChar (sep : Char) : List Char → List (List Char)
  | [] => [[]]
  | c :: rest =>
    let r := splitOnChar sep rest
    if c = sep then [] :: r
    else
      match r with
      | h :: t => (c :: h) :: t
      | [] => [[c]]

/-- Python `str.split(sep)` for a one-character separator. -/
def pySplit (sep : Char) (s : String) : List String :=
  (splitOnChar sep s.data).map String.mk

/-- Python `str.lower()` (ASCII case folding). -/
def pyLower (s : String) : String :=
  String.mk (s.data.map Char.toLower)

/-- Digits-to-number helper for `py_int?`. -/
def digitsToNat (cs : List Char) : Nat :=
  cs.foldl (fun a c => a * 10 + (c.toNat - 48)) 0

/-- Python `int(text)`: strip whitespace, optional sign, decimal digits;
`none` models the `ValueError` that `int()` raises on malformed input. -/
def pyInt? (s : String) : Option Int :=
  let cs := (pyStrip s).data
  match cs with
  | '-' :: rest =>
    if !rest.isEmpty && rest.all Char.isDigit then some (-(digitsToNat rest : Int)) else none
  | '+' :: rest =>
    if !rest.isEmpty && rest.all Char.isDigit then some ((digitsToNat rest : Int)) else none
  | _ =>
    if !cs.isEmpty && cs.all Char.isDigit then some ((digitsToNat cs : Int)) else none

/-! ### Values, column types, schema objects -/

/-- A cell / filter value (SQL NULL is `null`). -/
inductive Value
  | null
  | bool (b : Bool)
  | int (n : Int)
  | str (s : String)
  deriving DecidableEq, Repr

/-- The possible contents of `ColumnFilter.value`: a scalar, or the list
built by the column setter for list-valued filter kinds. -/
inductive PyObj
  | val (v : Value)
  | list (vs : List Value)
  deriving DecidableEq, Repr

/-- The semantic type tag of a column (`column.type.python_type`). -/
inductive PyType
  | bool
  | int
  | text
  deriving DecidableEq, Repr

/-- A reflected column: name, owning table name, flags, type tag
(mirrors the fields of `column_to_dict`; foreign keys are omitted —
no claim mentions them). -/
structure Column where
  name : String
  table_name : String
  primary_key : Bool
  nullable : Bool
  ty : PyType
  deriving DecidableEq, Repr

/-- The dictionary produced by `column_to_dict` (minus foreign keys). -/
structure ColumnDict where
  name : String
  primary_key : Bool
  nullable : Bool
  ty : PyType
  table : String
  deriving DecidableEq, Repr

/-- Function `column_to_dict` from `db_service.py`. -/
def column_to_dict (c : Column) : ColumnDict :=
  ⟨c.name, c.primary_key, c.nullable, c.ty, c.table_name⟩

/-- A reflected table: name and ordered column collection. -/
structure Table where
  name : String
  columns : List Column
  deriving DecidableEq, Repr

/-- Lookup `columns.get(name)` on a SQLAlchemy column collection. -/
def getColumnOf : List Column → String → Option Column
  | [], _ => none
  | c :: rest, n => if c.name = n then some c else getColumnOf rest n

/-- Lookup `table.columns.get(name)`. -/
def Table.getColumn (t : Table) (n : String) : Option Column :=
  getColumnOf t.columns n

/-- The reflected catalog `self.meta.tables`: table name → table. -/
abbrev Tables := List (String × Table)

/-- Python `dict.get(key)` on an association list. -/
def alistLookup {α : Type} (k : String) : List (String × α) → Option α
  | [] => none
  | (k2, v) :: rest => if k = k2 then some v else alistLookup k rest

/-! ### Type coercion (`convert_url_value`) -/

/-- Function `convert_url_value`: boolean columns compare the lowered text against
the literal `"true"` (and never fail); other types use the type's native
parse, `none` modelling the `ValueError`/`TypeError` a failed parse raises. -/
def convert_url_value (url_value : String) (ty : PyType) : Option Value :=
  match ty with
  | .bool => some (.bool (decide (pyLower url_value = "true")))
  | .int =>
    match pyInt? url_value with
    | some n => some (.int n)
    | none => none
  | .text => some (.str url_value)

/-! ### Filter model (`ColumnFilter`) -/

/-- The ten members of `FILTER_TYPES`; the inductive enforces the
constructor's membership check. -/
inductive FilterType
  | lt | lte | eq | neq | gt | gte | in_ | not_in | bt | nbt
  deriving DecidableEq, Repr

/-- Membership in `LIST_FILTERS = ['in', 'not_in', 'bt', 'nbt']`. -/
def isListFilter : FilterType → Bool
  | .in_ => true
  | .not_in => true
  | .bt => true
  | .nbt => true
  | _ => false

/-- A `ColumnFilter` as the boundary layer builds it: column name, kind,
raw URL text, and the (initially absent) coerced value. -/
structure ColumnFilter where
  column_name : String
  filter_type : FilterType
  url_value : String
  value : Option PyObj
  deriving DecidableEq, Repr

/-- The `for value in self.url_value.split(';')` coercion loop of the
`ColumnFilter.column` setter: convert each element in order, failing on
the first element that does not coerce. -/
def convert_all (ty : PyType) : List String → Option (List Value)
  | [] => some []
  | v :: rest =>
    match convert_url_value v ty with
    | none => none
    | some val =>
      match convert_all ty rest with
      | none => none
      | some vals => some (val :: vals)

/-- The body of the `ColumnFilter.column` setter: list kinds split the raw
text on `';'` and coerce every element, scalar kinds coerce the raw text
directly; `none` models the re-raised `ValueError` on any coercion failure. -/
def set_column_value (cf : ColumnFilter) (column : Column) : Option ColumnFilter :=
  if isListFilter cf.filter_type then
    match convert_all column.ty (pySplit ';' cf.url_value) with
    | some values => some {cf with value := some (.list values)}
    | none => none
  else
    match convert_url_value cf.url_value column.ty with
    | some v => some {cf with value := some (.val v)}
    | none => none

/-! ### SQL boolean expressions -/

/-- Errors that abort query construction: `argumentError` is SQLAlchemy's
`ArgumentError` (raised when `or_`/`and_` receives a non-clause such as a
Python list), `typeError` is Python's `TypeError` (wrong argument count for
`between`), `valueErrorMsg` carries the message of a `ValueError` raised by
`apply_join`, and `attributeError` models attribute access on `None`
(missing table in `query_table`). -/
inductive QueryError
  | argumentError
  | typeError
  | valueErrorMsg (msg : String)
  | attributeError
  deriving DecidableEq, Repr

/-- SQLAlchemy boolean expression over reflected columns. -/
inductive Expr
  | lt (c : Column) (v : Value)
  | le (c : Column) (v : Value)
  | eq (c : Column) (v : Value)
  | ne (c : Column) (v : Value)
  | gt (c : Column) (v : Value)
  | ge (c : Column) (v : Value)
  | inE (c : Column) (vs : List Value)
  | eqCols (a b : Column)
  | notE (e : Expr)
  | between (c : Column) (lo hi : Value) (symmetric : Bool)
  | andE (es : List Expr)
  | orE (es : List Expr)

/-- One positional argument to `or_`/`and_`: either a proper clause, or a
Python list of clauses (what `apply_column_filters` actually passes). -/
inductive ClauseArg
  | clause (e : Expr)
  | clauseList (es : List Expr)

/-- SQLAlchemy's `_literal_as_text` coercion of one `or_`/`and_` argument:
a plain Python list is not a clause element and raises `ArgumentError`. -/
def literal_as_text : ClauseArg → Except QueryError Expr
  | .clause e => .ok e
  | .clauseList _ => .error .argumentError

/-- SQLAlchemy `BooleanClauseList._construct` collapses a one-element conjunction to
the element itself. -/
def andAll : List Expr → Expr
  | [e] => e
  | es => .andE es

/-- Likewise for disjunctions. -/
def orAll : List Expr → Expr
  | [e] => e
  | es => .orE es

/-- The coercion loop of `BooleanClauseList._construct`: coerce each
positional argument in order, raising on the first non-clause. -/
def literals_as_text : List ClauseArg → Except QueryError (List Expr)
  | [] => .ok []
  | c :: rest =>
    match literal_as_text c with
    | .error e => .error e
    | .ok e =>
      match literals_as_text rest with
      | .error e2 => .error e2
      | .ok es => .ok (e :: es)

/-- SQLAlchemy `and_(*clauses)`. -/
def sql_and (clauses : List ClauseArg) : Except QueryError Expr :=
  match literals_as_text clauses with
  | .error e => .error e
  | .ok es => .ok (andAll es)

/-- SQLAlchemy `or_(*clauses)`. -/
def sql_or (clauses : List ClauseArg) : Except QueryError Expr :=
  match literals_as_text clauses with
  | .error e => .error e
  | .ok es => .ok (orAll es)

/-- Python truthiness of a value (used when a third `between` argument
lands in the `symmetric` keyword slot). -/
def truthy : Value → Bool
  | .null => false
  | .bool b => b
  | .int n => decide (n ≠ 0)
  | .str s => decide (s ≠ "")

/-- Call `column.between(*value)`: the signature is
`between(cleft, cright, symmetric=False)`, so star-unpacking a list of two
values fills the bounds, a list of three additionally fills `symmetric`
with the (truthiness of the) third value, and any other shape raises
`TypeError`. -/
def star_between (column : Column) (value : Option PyObj) : Except QueryError Expr :=
  match value with
  | some (.list [a, b]) => .ok (.between column a b false)
  | some (.list [a, b, c]) => .ok (.between column a b (truthy c))
  | _ => .error .typeError

/-- Call `column.in_(value)`: requires a sequence argument. -/
def sql_in (column : Column) (value : Option PyObj) : Except QueryError Expr :=
  match value with
  | some (.list vs) => .ok (.inE column vs)
  | _ => .error .typeError

/-- Scalar content of a bound filter value.  After a successful bind of a
scalar filter kind the value is always `some (.val v)`; the remaining
cases are unreachable on those kinds and default to NULL. -/
def scalarOf : Option PyObj → Value
  | some (.val v) => v
  | some (.list _) => .null
  | none => .null

/-- Function `get_filter_expression`: bind the column (a failed bind is swallowed
and the filter dropped — `.ok none`), then build the expression for the
filter kind.  Errors raised while *building* the expression (`between`
arity, `ArgumentError`) are outside the `try` and propagate. -/
def get_filter_expression (column : Column) (column_filter : ColumnFilter) :
    Except QueryError (Option Expr) :=
  match set_column_value column_filter column with
  | none => .ok none
  | some cf =>
    let value := cf.value
    match cf.filter_type with
    | .lt => .ok (some (.lt column (scalarOf value)))
    | .lte => .ok (some (.le column (scalarOf value)))
    | .eq => .ok (some (.eq column (scalarOf value)))
    | .neq => .ok (some (.ne column (scalarOf value)))
    | .gt => .ok (some (.gt column (scalarOf value)))
    | .gte => .ok (some (.ge column (scalarOf value)))
    | .in_ =>
      match sql_in column value with
      | .ok e => .ok (some e)
      | .error er => .error er
    | .not_in =>
      match sql_in column value with
      | .ok e => .ok (some (.notE e))
      | .error er => .error er
    | .bt =>
      match star_between column value with
      | .ok e => .ok (some e)
      | .error er => .error er
    | .nbt =>
      match star_between column value with
      | .ok e => .ok (some (.notE e))
      | .error er => .error er

/-- Function `get_filter_expressions`: collect the non-`None` expressions of a
filter list, in order; an exception mid-loop aborts. -/
def get_filter_expressions (column : Column) : List ColumnFilter → Except QueryError (List Expr)
  | [] => .ok []
  | cf :: rest =>
    match get_filter_expression column cf with
    | .error e => .error e
    | .ok none => get_filter_expressions column rest
    | .ok (some e) =>
      match get_filter_expressions column rest with
      | .error e2 => .error e2
      | .ok es => .ok (e :: es)

/-! ### The query object (`Select`) -/

/-- The join attached by `apply_join`. -/
structure JoinClause where
  table : Table
  onclause : Expr
  isouter : Bool

/-- A SQLAlchemy `Select` in the shape `query_table` builds: projection,
primary table, accumulated WHERE clauses (implicitly conjoined), ORDER BY
terms (`true` = ascending), LIMIT/OFFSET, and at most one join. -/
structure Select where
  columns : List Column
  from_tab : Table
  wheres : List Expr
  order_by : List (Bool × Column)
  limit : Option Int
  offset : Option Int
  join : Option JoinClause

/-- Call `query.where(e)`. -/
def addWhere (q : Select) (e : Expr) : Select :=
  {q with wheres := q.wheres ++ [e]}

/-- Call `query.order_by(term)`. -/
def addOrder (q : Select) (t : Bool × Column) : Select :=
  {q with order_by := q.order_by ++ [t]}

/-- Call `query.limit(l).offset(o)` (as one update). -/
def setPage (q : Select) (l o : Option Int) : Select :=
  {q with limit := l, offset := o}

/-- Function `apply_column_filters`: for each `column_name -> filter_list` entry,
skip unknown columns, collect the valid expressions, and add zero, one, or
— via `or_(filter_expressions)`, the list passed as a single argument,
exactly as in the source — a disjunction to the WHERE clause. -/
def apply_column_filters (table : Table) (query : Select) :
    List (String × List ColumnFilter) → Except QueryError Select
  | [] => .ok query
  | (column_name, filter_list) :: rest =>
    match Table.getColumn table column_name with
    | none => apply_column_filters table query rest
    | some column =>
      match get_filter_expressions column filter_list with
      | .error e => .error e
      | .ok filter_expressions =>
        match filter_expressions with
        | [] => apply_column_filters table query rest
        | [e] => apply_column_filters table (addWhere query e) rest
        | es =>
          match sql_or [ClauseArg.clauseList es] with
          | .error e => .error e
          | .ok d => apply_column_filters table (addWhere query d) rest

/-- A `ColumnSort` namedtuple. -/
structure ColumnSort where
  column_name : String
  direction : String
  deriving DecidableEq, Repr

/-- Function `apply_column_sorts`: append an ordering term per sort whose column
exists on the table; the two direction tests are independent `if`s. -/
def apply_column_sorts (table : Table) (query : Select) : List ColumnSort → Select
  | [] => query
  | sort :: rest =>
    match Table.getColumn table sort.column_name with
    | none => apply_column_sorts table query rest
    | some col =>
      let q1 := if sort.direction = "asc" then addOrder query (true, col) else query
      let q2 := if sort.direction = "desc" then addOrder q1 (false, col) else q1
      apply_column_sorts table q2 rest

/-! ### Joins (`apply_join`) -/

/-- A `ColumnPair` namedtuple. -/
structure ColumnPair where
  from_column : String
  to_column : String
  deriving DecidableEq, Repr

/-- A `TableJoin` namedtuple. -/
structure TableJoin where
  table_name : String
  column_pairs : List ColumnPair
  outer_join : Bool
  deriving DecidableEq, Repr

/-- The message of the missing-table `ValueError` in `apply_join`. -/
def joinTableMsg (table_name : String) : String :=
  "Invalid join. Table with name \"" ++ table_name ++ "\" does not exist."

/-- The message of the missing-column `ValueError` in `apply_join`. -/
def joinColMsg (column_name table_name : String) : String :=
  "Invalid join, \"" ++ column_name ++ "\" is not a column on table \"" ++ table_name ++ "\""

/-- The `for column_pair in join.column_pairs` loop of `apply_join`:
resolve both columns of each pair (source column checked first), build one
equality condition per pair, abort on the first missing column. -/
def resolve_pair_conds (table join_table : Table) : List ColumnPair → Except QueryError (List Expr)
  | [] => .ok []
  | cp :: rest =>
    match Table.getColumn table cp.from_column, Table.getColumn join_table cp.to_column with
    | none, _ => .error (.valueErrorMsg (joinColMsg cp.from_column table.name))
    | some _, none => .error (.valueErrorMsg (joinColMsg cp.to_column join_table.name))
    | some f, some t =>
      match resolve_pair_conds table join_table rest with
      | .error e => .error e
      | .ok es => .ok (Expr.eqCols f t :: es)

/-- Function `apply_join`: resolve the target table, build the equality conditions,
AND them into the ON clause, and attach the join (outer iff the flag). -/
def apply_join (query : Select) (tables : Tables) (table : Table) (join : TableJoin) :
    Except QueryError Select :=
  match alistLookup join.table_name tables with
  | none => .error (.valueErrorMsg (joinTableMsg join.table_name))
  | some join_table =>
    match resolve_pair_conds table join_table join.column_pairs with
    | .error e => .error e
    | .ok join_conditions =>
      match sql_and (join_conditions.map ClauseArg.clause) with
      | .error e => .error e
      | .ok onclause => .ok {query with join := some ⟨join_table, onclause, join.outer_join⟩}

/-! ### Execution semantics -/

/-- A result row: qualified column key `"table.column"` → value. -/
abbrev Row := List (String × Value)

/-- The database contents: table name → stored rows. -/
abbrev Database := List (String × List Row)

/-- The qualified key `column.table.name + '.' + column.name`. -/
def fullName (c : Column) : String :=
  c.table_name ++ "." ++ c.name

/-- Access `row[column]`: the cell for a column in a result row (absent = NULL). -/
def rowVal (r : Row) (c : Column) : Value :=
  (alistLookup (fullName c) r).getD .null

/-- Lexicographic order on characters. -/
def strLeAux : List Char → List Char → Bool
  | [], _ => true
  | _ :: _, [] => false
  | a :: as, b :: bs => if a = b then strLeAux as bs else decide (a.toNat < b.toNat)

/-- Rank of a value's constructor, for cross-type comparisons. -/
def valRank : Value → Nat
  | .null => 0
  | .bool _ => 1
  | .int _ => 2
  | .str _ => 3

/-- A total `≤` on values: native within a type, constructor rank across
types (NULL ordering is modelled totally; no claim exercises it). -/
def valLe (a b : Value) : Bool :=
  match a, b with
  | .int m, .int n => decide (m ≤ n)
  | .str s, .str t => strLeAux s.data t.data
  | .bool x, .bool y => !x || y
  | _, _ => decide (valRank a ≤ valRank b)

/-- Strict version of `valLe`. -/
def valLt (a b : Value) : Bool :=
  valLe a b && !(decide (a = b))

mutual

/-- Truth of a boolean expression on one (merged) result row.
`BETWEEN SYMMETRIC` reorders its bounds; plain `BETWEEN` does not. -/
def evalExpr : Expr → Row → Bool
  | .lt c v, r => valLt (rowVal r c) v
  | .le c v, r => valLe (rowVal r c) v
  | .eq c v, r => decide (rowVal r c = v)
  | .ne c v, r => !(decide (rowVal r c = v))
  | .gt c v, r => valLt v (rowVal r c)
  | .ge c v, r => valLe v (rowVal r c)
  | .inE c vs, r => vs.any (fun v => decide (rowVal r c = v))
  | .eqCols a b, r => decide (rowVal r a = rowVal r b)
  | .notE e, r => !(evalExpr e r)
  | .between c lo hi symmetric, r =>
    let x := rowVal r c
    if symmetric && !(valLe lo hi) then valLe hi x && valLe x lo
    else valLe lo x && valLe x hi
  | .andE es, r => evalAll es r
  | .orE es, r => evalAny es r

/-- Conjunction of a clause list on a row. -/
def evalAll : List Expr → Row → Bool
  | [], _ => true
  | e :: es, r => evalExpr e r && evalAll es r

/-- Disjunction of a clause list on a row. -/
def evalAny : List Expr → Row → Bool
  | [], _ => false
  | e :: es, r => evalExpr e r || evalAny es r

end

/-- Stable insertion into a sorted list. -/
def insertSorted {α : Type} (le : α → α → Bool) (a : α) : List α → List α
  | [] => [a]
  | b :: bs => if le a b then a :: b :: bs else b :: insertSorted le a bs

/-- Stable insertion sort. -/
def sortByB {α : Type} (le : α → α → Bool) : List α → List α
  | [] => []
  | a :: as => insertSorted le a (sortByB le as)

/-- Row comparison for one ORDER BY term. -/
def sortKeyLe (t : Bool × Column) (r1 r2 : Row) : Bool :=
  if t.1 then valLe (rowVal r1 t.2) (rowVal r2 t.2) else valLe (rowVal r2 t.2) (rowVal r1 t.2)

/-- ORDER BY: later terms are subordinate to earlier ones (stable sort by
each term, last term first). -/
def applySorts (ts : List (Bool × Column)) (rows : List Row) : List Row :=
  ts.reverse.foldl (fun rs t => sortByB (sortKeyLe t) rs) rows

/-- The FROM relation: the primary table's rows, merged with the join
target's matching rows when a join is attached (outer joins keep
unmatched left rows, right columns NULL). -/
def execFrom (db : Database) (q : Select) : List Row :=
  let base := (alistLookup q.from_tab.name db).getD []
  match q.join with
  | none => base
  | some j =>
    let right := (alistLookup j.table.name db).getD []
    base.flatMap (fun r =>
      let ms := right.filterMap (fun s => if evalExpr j.onclause (r ++ s) then some (r ++ s) else none)
      if ms.isEmpty then
        if j.isouter then [r ++ j.table.columns.map (fun c => (fullName c, Value.null))] else []
      else ms)

/-- SQL evaluation of the assembled query: FROM (with join), WHERE,
ORDER BY, then OFFSET/LIMIT. -/
def execSelect (db : Database) (q : Select) : List Row :=
  let filtered := (execFrom db q).filter (fun r => evalAll q.wheres r)
  let sorted := applySorts q.order_by filtered
  match q.limit, q.offset with
  | some lim, some off => (sorted.drop off.toNat).take lim.toNat
  | some lim, none => sorted.take lim.toNat
  | none, some off => sorted.drop off.toNat
  | none, none => sorted

/-! ### Projection resolution and `query_table` -/

/-- The body of the `names_to_columns` loop for one name.  When
`all_tables` is supplied and non-empty (Python truthiness of the dict),
the name is split on `'.'` and unpacked into exactly two stripped parts —
any other shape raises the `ValueError` the loop swallows (`none`) — and
then looked up as `table.column` in the catalog (a missing table yields
the empty default column collection).  Only a `None`/empty catalog falls
back to the table's own columns. -/
def resolve_name (all_tables : Option Tables) (table_columns : List Column)
    (column_name : String) : Option Column :=
  match all_tables with
  | some tables =>
    if tables.isEmpty then getColumnOf table_columns column_name
    else
      match (pySplit '.' column_name).map pyStrip with
      | [table_name, column_name2] =>
        getColumnOf (((alistLookup table_name tables).map Table.columns).getD []) column_name2
      | _ => none
  | none => getColumnOf table_columns column_name

/-- Function `names_to_columns`: resolve each name, dropping the unresolvable. -/
def names_to_columns (column_names : List String) (table_columns : List Column)
    (all_tables : Option Tables) : List Column :=
  column_names.filterMap (resolve_name all_tables table_columns)

/-- The projection `query_table` selects: all of the table's own columns
when no explicit set is given, else `names_to_columns` against the full
catalog. -/
def resolvedColumns (meta : Tables) (table : Table) (column_names : Option (List String)) :
    List Column :=
  match column_names with
  | none => table.columns
  | some names => names_to_columns names table.columns (some meta)

/-- Pagination step of `query_table`: `if per_page > -1:
query.limit(per_page).offset(page * per_page)`. -/
def build_paged (q : Select) (page per_page : Int) : Select :=
  if per_page > -1 then setPage q (some per_page) (some (page * per_page)) else q

/-- Step `if filters is not None: apply_column_filters(...)`. -/
def apply_filters_opt (table : Table) (q : Select) :
    Option (List (String × List ColumnFilter)) → Except QueryError Select
  | none => .ok q
  | some fs => apply_column_filters table q fs

/-- Step `if sorts is not None: apply_column_sorts(...)`. -/
def apply_sorts_opt (table : Table) (q : Select) : Option (List ColumnSort) → Select
  | none => q
  | some ss => apply_column_sorts table q ss

/-- Step `if join is not None: apply_join(...)`. -/
def apply_join_opt (meta : Tables) (table : Table) (q : Select) :
    Option TableJoin → Except QueryError Select
  | none => .ok q
  | some j => apply_join q meta table j

/-- Row shaping: `data[column.table.name + '.' + column.name] = row[column]`
for every projected column, in projection order. -/
def shape_row (columns : List Column) (r : Row) : Row :=
  columns.map (fun c => (fullName c, rowVal r c))

/-- What `query_table` returns: the bare `[]` of the empty-projection
short-circuit, or the `(rows, column_data)` pair. -/
inductive QueryTableResult
  | bare (rows : List Row)
  | pair (rows : List Row) (column_data : List ColumnDict)
  deriving DecidableEq, Repr

/-- The tail of `query_table` after the projection has been resolved
non-empty: build the select, paginate, apply filters, sorts, join, execute
and shape. -/
def query_table_rest (db : Database) (meta : Tables) (table : Table) (columns : List Column)
    (page per_page : Int) (filters : Option (List (String × List ColumnFilter)))
    (sorts : Option (List ColumnSort)) (join : Option TableJoin) :
    Except QueryError QueryTableResult :=
  match apply_filters_opt table
      (build_paged ⟨columns, table, [], [], none, none, none⟩ page per_page) filters with
  | .error e => .error e
  | .ok q2 =>
    match apply_join_opt meta table (apply_sorts_opt table q2 sorts) join with
    | .error e => .error e
    | .ok q4 => .ok (.pair ((execSelect db q4).map (shape_row columns)) (columns.map column_to_dict))

/-- Method `DBService.query_table`: look up the table (attribute access on `None`
raises if it is absent), resolve the projection, short-circuit to a bare
`[]` when it is empty, otherwise run the pipeline. -/
def query_table (db : Database) (meta : Tables) (table_name : String)
    (column_names : Option (List String)) (page per_page : Int)
    (filters : Option (List (String × List ColumnFilter)))
    (sorts : Option (List ColumnSort)) (join : Option TableJoin) :
    Except QueryError QueryTableResult :=
  match alistLookup table_name meta with
  | none => .error .attributeError
  | some table =>
    let columns := resolvedColumns meta table column_names
    if columns.isEmpty then .ok (.bare [])
    else query_table_rest db meta table columns page per_page filters sorts join

/-! ### Concrete fixtures used by witnesses and counterexamples -/

/-- An integer column `age` on table `A`. -/
def ageCol : Column := ⟨"age", "A", false, true, .int⟩

/-- A text column `status` on table `A`. -/
def statusCol : Column := ⟨"status", "A", false, true, .text⟩

/-- A text column `name` on table `A`. -/
def nameCol : Column := ⟨"name", "A", false, true, .text⟩

/-- An integer column `b_id` on table `A`. -/
def bidCol : Column := ⟨"b_id", "A", false, true, .int⟩

/-- Table `A`. -/
def tableA : Table := ⟨"A", [ageCol, statusCol, nameCol, bidCol]⟩

/-- Integer key column on the join target. -/
def idCol : Column := ⟨"id", "other_table", true, false, .int⟩

/-- A text column `label` on the join target. -/
def labelCol : Column := ⟨"label", "other_table", false, true, .text⟩

/-- The join target table. -/
def tableO : Table := ⟨"other_table", [idCol, labelCol]⟩

/-- The reflected catalog of the fixture database. -/
def exMeta : Tables := [("A", tableA), ("other_table", tableO)]

/-- One stored row of table `A`. -/
def rowA (age : Int) (status nm : String) (bid : Int) : Row :=
  [("A.age", .int age), ("A.status", .str status), ("A.name", .str nm), ("A.b_id", .int bid)]

/-- Fixture database contents. -/
def exDb : Database :=
  [("A", [rowA 25 "open" "w" 1, rowA 35 "active" "x" 1, rowA 10 "closed" "y" 2,
          rowA 50 "active" "z" 9]),
   ("other_table", [[("other_table.id", .int 1), ("other_table.label", .str "L1")],
                    [("other_table.id", .int 2), ("other_table.label", .str "L2")]])]

/-- A single-row database for the projection counterexample. -/
def c2Db : Database :=
  [("A", [rowA 25 "open" "x" 1]),
   ("other_table", [[("other_table.id", .int 1), ("other_table.label", .str "L")]])]

/-- Join of `A.b_id` onto `other_table.id`. -/
def c2Join : TableJoin := ⟨"other_table", [⟨"b_id", "id"⟩], false⟩

/-- The plain select over all of `A`'s columns. -/
def baseSelect : Select := ⟨tableA.columns, tableA, [], [], none, none, none⟩

/-! ### Helper lemmas about filter binding and expression building -/

/-- Binding a `bt` filter whose raw text coerces to exactly two values
builds `column BETWEEN v1 AND v2` in the order supplied. -/
theorem get_filter_expression_bt_pair (col : Column) (n u : String) (va vb : Value)
    (h : convert_all col.ty (pySplit ';' u) = some [va, vb]) :
    get_filter_expression col ⟨n, .bt, u, none⟩ = .ok (some (.between col va vb false)) := by
  simp [get_filter_expression, set_column_value, isListFilter, h, star_between]

/-- Likewise for `nbt`, negated. -/
theorem get_filter_expression_nbt_pair (col : Column) (n u : String) (va vb : Value)
    (h : convert_all col.ty (pySplit ';' u) = some [va, vb]) :
    get_filter_expression col ⟨n, .nbt, u, none⟩ = .ok (some (.notE (.between col va vb false))) := by
  simp [get_filter_expression, set_column_value, isListFilter, h, star_between]

/-- Call `between(*values)` with one value or more than three raises `TypeError`. -/
theorem star_between_bad_arity (col : Column) (vs : List Value)
    (h : vs.length = 1 ∨ 4 ≤ vs.length) :
    star_between col (some (.list vs)) = .error .typeError := by
  match vs, h with
  | [], h => simp at h
  | [a], _ => rfl
  | [a, b], h => simp at h
  | [a, b, c], h => simp at h
  | a :: b :: c :: d :: rest, _ => rfl

/-- A `bt` filter that binds to the wrong number of values (one, or four
or more) propagates the `TypeError` raised outside the drop guard. -/
theorem get_filter_expression_bt_bad_arity (col : Column) (n u : String) (vs : List Value)
    (h : convert_all col.ty (pySplit ';' u) = some vs)
    (hlen : vs.length = 1 ∨ 4 ≤ vs.length) :
    get_filter_expression col ⟨n, .bt, u, none⟩ = .error .typeError := by
  simp [get_filter_expression, set_column_value, isListFilter, h,
        star_between_bad_arity col vs hlen]

/-- Likewise for `nbt`. -/
theorem get_filter_expression_nbt_bad_arity (col : Column) (n u : String) (vs : List Value)
    (h : convert_all col.ty (pySplit ';' u) = some vs)
    (hlen : vs.length = 1 ∨ 4 ≤ vs.length) :
    get_filter_expression col ⟨n, .nbt, u, none⟩ = .error .typeError := by
  simp [get_filter_expression, set_column_value, isListFilter, h,
        star_between_bad_arity col vs hlen]

/-- A `bt` filter that binds to exactly three values silently builds a
between-expression whose `symmetric` flag is the truthiness of the third
value. -/
theorem get_filter_expression_bt_three (col : Column) (n u : String) (va vb vc : Value)
    (h : convert_all col.ty (pySplit ';' u) = some [va, vb, vc]) :
    get_filter_expression col ⟨n, .bt, u, none⟩ = .ok (some (.between col va vb (truthy vc))) := by
  simp [get_filter_expression, set_column_value, isListFilter, h, star_between]

/-- A filter whose raw value fails to coerce is dropped (`None`). -/
theorem get_filter_expression_dropped (column : Column) (cf : ColumnFilter)
    (h : set_column_value cf column = none) :
    get_filter_expression column cf = .ok none := by
  simp [get_filter_expression, h]

/-! ### Helper lemmas: dropped filters and sorts are no-ops -/

/-- Removing a filter that fails to bind does not change the collected
expression list. -/
theorem get_filter_expressions_drop (column : Column) (cf : ColumnFilter)
    (h : set_column_value cf column = none) (l₁ l₂ : List ColumnFilter) :
    get_filter_expressions column (l₁ ++ cf :: l₂) = get_filter_expressions column (l₁ ++ l₂) := by
  induction l₁ with
  | nil =>
    simp only [List.nil_append, get_filter_expressions,
      get_filter_expression_dropped column cf h]
  | cons hd tl ih =>
    simp only [List.cons_append, get_filter_expressions, List.append_eq]
    rw [ih]

/-- Removing a filters entry whose column is not on the table does not
change the built query. -/
theorem apply_column_filters_skip (table : Table) (bad : String) (fl : List ColumnFilter)
    (h : Table.getColumn table bad = none) (F₁ F₂ : List (String × List ColumnFilter))
    (q : Select) :
    apply_column_filters table q (F₁ ++ (bad, fl) :: F₂)
      = apply_column_filters table q (F₁ ++ F₂) := by
  induction F₁ generalizing q with
  | nil => simp only [List.nil_append, apply_column_filters, h]
  | cons hd tl ih =>
    obtain ⟨cname, flist⟩ := hd
    simp only [List.cons_append, apply_column_filters, List.append_eq]
    split
    · exact ih q
    · split
      · rfl
      · split
        · exact ih q
        · exact ih _
        · split
          · rfl
          · exact ih _

/-- Removing one unbindable filter from a filters entry does not change
the built query. -/
theorem apply_column_filters_drop_filter (table : Table) (cname : String) (col : Column)
    (hcol : Table.getColumn table cname = some col) (cf : ColumnFilter)
    (h : set_column_value cf col = none) (l₁ l₂ : List ColumnFilter)
    (F₁ F₂ : List (String × List ColumnFilter)) (q : Select) :
    apply_column_filters table q (F₁ ++ (cname, l₁ ++ cf :: l₂) :: F₂)
      = apply_column_filters table q (F₁ ++ (cname, l₁ ++ l₂) :: F₂) := by
  induction F₁ generalizing q with
  | nil =>
    simp only [List.nil_append, apply_column_filters, hcol]
    rw [get_filter_expressions_drop col cf h l₁ l₂]
  | cons hd tl ih =>
    obtain ⟨cname2, flist⟩ := hd
    simp only [List.cons_append, apply_column_filters, List.append_eq]
    split
    · exact ih q
    · split
      · rfl
      · split
        · exact ih q
        · exact ih _
        · split
          · rfl
          · exact ih _

/-- Removing a sort whose column is not on the table does not change the
built query. -/
theorem apply_column_sorts_skip (table : Table) (bad dir : String)
    (h : Table.getColumn table bad = none) (S₁ S₂ : List ColumnSort) (q : Select) :
    apply_column_sorts table q (S₁ ++ ⟨bad, dir⟩ :: S₂)
      = apply_column_sorts table q (S₁ ++ S₂) := by
  induction S₁ generalizing q with
  | nil => simp only [List.nil_append, apply_column_sorts, h]
  | cons hd tl ih =>
    simp only [List.cons_append, apply_column_sorts, List.append_eq]
    split
    · exact ih q
    · exact ih _

/-- Lemma: `query_table` is determined by the behavior of `apply_column_filters`
on the looked-up table. -/
theorem query_table_filters_congr (db : Database) (meta : Tables) (tn : String) (table : Table)
    (names : Option (List String)) (page pp : Int)
    (fs fs2 : List (String × List ColumnFilter)) (ss : Option (List ColumnSort))
    (j : Option TableJoin) (hl : alistLookup tn meta = some table)
    (h : ∀ q, apply_column_filters table q fs = apply_column_filters table q fs2) :
    query_table db meta tn names page pp (some fs) ss j
      = query_table db meta tn names page pp (some fs2) ss j := by
  unfold query_table
  rw [hl]
  by_cases hc : (resolvedColumns meta table names).isEmpty
  · simp only [hc, if_true]
  · simp only [hc, if_false, Bool.false_eq_true, query_table_rest, apply_filters_opt]
    rw [h]

/-- Lemma: `query_table` is determined by the behavior of `apply_column_sorts`
on the looked-up table. -/
theorem query_table_sorts_congr (db : Database) (meta : Tables) (tn : String) (table : Table)
    (names : Option (List String)) (page pp : Int)
    (fs : Option (List (String × List ColumnFilter))) (ss ss2 : List ColumnSort)
    (j : Option TableJoin) (hl : alistLookup tn meta = some table)
    (h : ∀ q, apply_column_sorts table q ss = apply_column_sorts table q ss2) :
    query_table db meta tn names page pp fs (some ss) j
      = query_table db meta tn names page pp fs (some ss2) j := by
  unfold query_table
  rw [hl]
  by_cases hc : (resolvedColumns meta table names).isEmpty
  · simp only [hc, if_true]
  · simp only [hc, if_false, Bool.false_eq_true, query_table_rest, apply_sorts_opt]
    split
    · rfl
    · rw [h]

/-! ### Helper lemmas: pagination commutes with the rest of the pipeline -/

/-- Adding a WHERE clause commutes with setting LIMIT/OFFSET. -/
theorem addWhere_setPage (q : Select) (l o : Option Int) (e : Expr) :
    addWhere (setPage q l o) e = setPage (addWhere q e) l o := rfl

/-- Adding an ORDER BY term commutes with setting LIMIT/OFFSET. -/
theorem addOrder_setPage (q : Select) (l o : Option Int) (t : Bool × Column) :
    addOrder (setPage q l o) t = setPage (addOrder q t) l o := rfl

/-- Lemma: `apply_column_filters` only touches the WHERE clauses, so it commutes
with setting LIMIT/OFFSET. -/
theorem apply_column_filters_setPage (table : Table) (l o : Option Int)
    (fs : List (String × List ColumnFilter)) :
    ∀ q, apply_column_filters table (setPage q l o) fs
      = (apply_column_filters table q fs).map (fun q2 => setPage q2 l o) := by
  induction fs with
  | nil => intro q; rfl
  | cons hd tl ih =>
    intro q
    obtain ⟨cname, flist⟩ := hd
    simp only [apply_column_filters]
    split
    · exact ih q
    · split
      · rfl
      · split
        · exact ih q
        · rw [addWhere_setPage]; exact ih _
        · split
          · rfl
          · rw [addWhere_setPage]; exact ih _

/-- Lemma: `apply_column_sorts` only touches the ORDER BY list, so it commutes
with setting LIMIT/OFFSET. -/
theorem apply_column_sorts_setPage (table : Table) (l o : Option Int) (ss : List ColumnSort) :
    ∀ q, apply_column_sorts table (setPage q l o) ss
      = setPage (apply_column_sorts table q ss) l o := by
  induction ss with
  | nil => intro q; rfl
  | cons hd tl ih =>
    intro q
    simp only [apply_column_sorts]
    split
    · exact ih q
    · split
      · split
        · rw [addOrder_setPage, addOrder_setPage]; exact ih _
        · rw [addOrder_setPage]; exact ih _
      · split
        · rw [addOrder_setPage]; exact ih _
        · exact ih _

/-- Lemma: `apply_join` only touches the join slot, so it commutes with setting
LIMIT/OFFSET. -/
theorem apply_join_setPage (tables : Tables) (table : Table) (j : TableJoin) (l o : Option Int)
    (q : Select) :
    apply_join (setPage q l o) tables table j
      = (apply_join q tables table j).map (fun q2 => setPage q2 l o) := by
  unfold apply_join
  split
  · rfl
  · split
    · rfl
    · split
      · rfl
      · rfl

/-- Optional-filters variant of `apply_column_filters_setPage`. -/
theorem apply_filters_opt_setPage (table : Table) (l o : Option Int)
    (fs : Option (List (String × List ColumnFilter))) (q : Select) :
    apply_filters_opt table (setPage q l o) fs
      = (apply_filters_opt table q fs).map (fun q2 => setPage q2 l o) := by
  cases fs with
  | none => rfl
  | some fl => exact apply_column_filters_setPage table l o fl q

/-- Optional-sorts variant of `apply_column_sorts_setPage`. -/
theorem apply_sorts_opt_setPage (table : Table) (l o : Option Int)
    (ss : Option (List ColumnSort)) (q : Select) :
    apply_sorts_opt table (setPage q l o) ss = setPage (apply_sorts_opt table q ss) l o := by
  cases ss with
  | none => rfl
  | some sl => exact apply_column_sorts_setPage table l o sl q

/-- Optional-join variant of `apply_join_setPage`. -/
theorem apply_join_opt_setPage (meta : Tables) (table : Table) (l o : Option Int)
    (j : Option TableJoin) (q : Select) :
    apply_join_opt meta table (setPage q l o) j
      = (apply_join_opt meta table q j).map (fun q2 => setPage q2 l o) := by
  cases j with
  | none => rfl
  | some jn => exact apply_join_setPage meta table jn l o q

/-- Lemma: `apply_column_filters` never changes LIMIT/OFFSET. -/
theorem apply_column_filters_preserves_page (table : Table)
    (fs : List (String × List ColumnFilter)) :
    ∀ q q2, apply_column_filters table q fs = .ok q2 →
      q2.limit = q.limit ∧ q2.offset = q.offset := by
  induction fs with
  | nil => intro q q2 h; cases h; exact ⟨rfl, rfl⟩
  | cons hd tl ih =>
    intro q q2 h
    obtain ⟨cname, flist⟩ := hd
    simp only [apply_column_filters] at h
    split at h
    · exact ih q q2 h
    · split at h
      · cases h
      · split at h
        · exact ih q q2 h
        · have h2 := ih _ q2 h
          exact ⟨h2.1, h2.2⟩
        · split at h
          · cases h
          · have h2 := ih _ q2 h
            exact ⟨h2.1, h2.2⟩

/-- Lemma: `apply_column_sorts` never changes LIMIT/OFFSET. -/
theorem apply_column_sorts_preserves_page (table : Table) (ss : List ColumnSort) :
    ∀ q, (apply_column_sorts table q ss).limit = q.limit
      ∧ (apply_column_sorts table q ss).offset = q.offset := by
  induction ss with
  | nil => intro q; exact ⟨rfl, rfl⟩
  | cons hd tl ih =>
    intro q
    simp only [apply_column_sorts]
    split
    · exact ih q
    · split
      · split
        · exact ih _
        · exact ih _
      · split
        · exact ih _
        · exact ih _

/-- Lemma: `apply_join` never changes LIMIT/OFFSET. -/
theorem apply_join_preserves_page (tables : Tables) (table : Table) (j : TableJoin)
    (q q2 : Select) (h : apply_join q tables table j = .ok q2) :
    q2.limit = q.limit ∧ q2.offset = q.offset := by
  unfold apply_join at h
  split at h
  · cases h
  · split at h
    · cases h
    · split at h
      · cases h
      · cases h; exact ⟨rfl, rfl⟩

/-- Optional variants of the preservation lemmas. -/
theorem apply_filters_opt_preserves_page (table : Table)
    (fs : Option (List (String × List ColumnFilter))) (q q2 : Select)
    (h : apply_filters_opt table q fs = .ok q2) :
    q2.limit = q.limit ∧ q2.offset = q.offset := by
  cases fs with
  | none => cases h; exact ⟨rfl, rfl⟩
  | some fl => exact apply_column_filters_preserves_page table fl q q2 h

/-- Lemma: `apply_sorts_opt` never changes LIMIT/OFFSET. -/
theorem apply_sorts_opt_preserves_page (table : Table) (ss : Option (List ColumnSort))
    (q : Select) :
    (apply_sorts_opt table q ss).limit = q.limit
      ∧ (apply_sorts_opt table q ss).offset = q.offset := by
  cases ss with
  | none => exact ⟨rfl, rfl⟩
  | some sl => exact apply_column_sorts_preserves_page table sl q

/-- Lemma: `apply_join_opt` never changes LIMIT/OFFSET. -/
theorem apply_join_opt_preserves_page (meta : Tables) (table : Table) (j : Option TableJoin)
    (q q2 : Select) (h : apply_join_opt meta table q j = .ok q2) :
    q2.limit = q.limit ∧ q2.offset = q.offset := by
  cases j with
  | none => cases h; exact ⟨rfl, rfl⟩
  | some jn => exact apply_join_preserves_page meta table jn q q2 h

/-- Setting LIMIT/OFFSET does not change the FROM relation. -/
theorem execFrom_setPage (db : Database) (q : Select) (l o : Option Int) :
    execFrom db (setPage q l o) = execFrom db q := rfl

/-- Projections of `setPage`. -/
theorem setPage_limit (q : Select) (l o : Option Int) : (setPage q l o).limit = l := rfl

/-- Projections of `setPage`. -/
theorem setPage_offset (q : Select) (l o : Option Int) : (setPage q l o).offset = o := rfl

/-- Projections of `setPage`. -/
theorem setPage_order_by (q : Select) (l o : Option Int) :
    (setPage q l o).order_by = q.order_by := rfl

/-- Projections of `setPage`. -/
theorem setPage_wheres (q : Select) (l o : Option Int) : (setPage q l o).wheres = q.wheres := rfl

/-- Executing a query with LIMIT/OFFSET set equals slicing the execution
of the same query without them. -/
theorem execSelect_setPage (db : Database) (q : Select) (lim off : Int)
    (hl : q.limit = none) (ho : q.offset = none) :
    execSelect db (setPage q (some lim) (some off))
      = ((execSelect db q).drop off.toNat).take lim.toNat := by
  simp only [execSelect, execFrom_setPage, setPage_limit, setPage_offset, setPage_order_by,
    setPage_wheres]
  rw [hl, ho]

/-- With the unlimited sentinel, pagination is skipped. -/
theorem build_paged_unlimited (q : Select) (page : Int) : build_paged q page (-1) = q := by
  simp [build_paged]

/-- With a non-negative page size, pagination sets LIMIT/OFFSET. -/
theorem build_paged_limited (q : Select) (page pp : Int) (hpp : 0 ≤ pp) :
    build_paged q page pp = setPage q (some pp) (some (page * pp)) := by
  simp only [build_paged, if_pos (by omega : pp > -1)]

/-- Core pagination lemma: a paged run of the pipeline returns the
`page * page_size` / `page_size` slice of the unpaged run's rows, with the
same column descriptors. -/
theorem query_table_rest_paged (db : Database) (meta : Tables) (table : Table)
    (columns : List Column) (page pp : Int)
    (fs : Option (List (String × List ColumnFilter))) (ss : Option (List ColumnSort))
    (j : Option TableJoin) (rows : List Row) (cols : List ColumnDict) (hpp : 0 ≤ pp)
    (href : query_table_rest db meta table columns 0 (-1) fs ss j = .ok (.pair rows cols)) :
    query_table_rest db meta table columns page pp fs ss j
      = .ok (.pair ((rows.drop (page * pp).toNat).take pp.toNat) cols) := by
  unfold query_table_rest at href ⊢
  rw [build_paged_unlimited] at href
  rw [build_paged_limited _ _ _ hpp, apply_filters_opt_setPage]
  cases hf : apply_filters_opt table ⟨columns, table, [], [], none, none, none⟩ fs with
  | error e => rw [hf] at href; simp at href
  | ok q2 =>
    rw [hf] at href
    simp only [Except.map] at href ⊢
    rw [apply_sorts_opt_setPage, apply_join_opt_setPage]
    cases hj : apply_join_opt meta table (apply_sorts_opt table q2 ss) j with
    | error e => rw [hj] at href; simp at href
    | ok q4 =>
      rw [hj] at href
      simp only [Except.map] at href ⊢
      simp only [Except.ok.injEq, QueryTableResult.pair.injEq] at href
      obtain ⟨hrows, hcols⟩ := href
      have hq2 := apply_filters_opt_preserves_page table fs _ _ hf
      have hq3 := apply_sorts_opt_preserves_page table ss q2
      have hq4 := apply_join_opt_preserves_page meta table j _ _ hj
      have hlim : q4.limit = none := by rw [hq4.1, hq3.1, hq2.1]
      have hoff : q4.offset = none := by rw [hq4.2, hq3.2, hq2.2]
      rw [execSelect_setPage db q4 pp (page * pp) hlim hoff]
      rw [← hrows, ← hcols]
      simp [List.map_take, List.map_drop]

/-! ### Helper lemmas: joins -/

/-- Proper clause arguments all coerce. -/
theorem literals_as_text_clauses (es : List Expr) :
    literals_as_text (es.map ClauseArg.clause) = .ok es := by
  induction es with
  | nil => rfl
  | cons e tl ih => simp [literals_as_text, literal_as_text, ih]

/-- Lemma: `and_` over properly unpacked clauses succeeds. -/
theorem sql_and_clauses (es : List Expr) : sql_and (es.map ClauseArg.clause) = .ok (andAll es) := by
  simp [sql_and, literals_as_text_clauses]

/-- The join-condition loop fails exactly when some pair references a
missing column. -/
theorem resolve_pair_conds_error_iff (table jt : Table) (cps : List ColumnPair) :
    (∃ e, resolve_pair_conds table jt cps = .error e) ↔
      ∃ cp ∈ cps, Table.getColumn table cp.from_column = none
        ∨ Table.getColumn jt cp.to_column = none := by
  induction cps with
  | nil => simp [resolve_pair_conds]
  | cons cp rest ih =>
    constructor
    · rintro ⟨e, he⟩
      unfold resolve_pair_conds at he
      cases hfrom : Table.getColumn table cp.from_column with
      | none => exact ⟨cp, List.mem_cons_self _ _, Or.inl hfrom⟩
      | some f =>
        cases hto : Table.getColumn jt cp.to_column with
        | none => exact ⟨cp, List.mem_cons_self _ _, Or.inr hto⟩
        | some t =>
          rw [hfrom, hto] at he
          cases hrec : resolve_pair_conds table jt rest with
          | error e2 =>
            obtain ⟨cp2, hmem, hbad⟩ := ih.1 ⟨e2, hrec⟩
            exact ⟨cp2, List.mem_cons_of_mem _ hmem, hbad⟩
          | ok es => rw [hrec] at he; cases he
    · rintro ⟨cp2, hmem, hbad⟩
      cases List.mem_cons.mp hmem with
      | inl hcp =>
        subst hcp
        cases hbad with
        | inl hfrom =>
          exact ⟨_, by unfold resolve_pair_conds; rw [hfrom]⟩
        | inr hto =>
          cases hfrom : Table.getColumn table cp2.from_column with
          | none => exact ⟨_, by unfold resolve_pair_conds; rw [hfrom]⟩
          | some f => exact ⟨_, by unfold resolve_pair_conds; rw [hfrom, hto]⟩
      | inr hmem2 =>
        cases hfrom : Table.getColumn table cp.from_column with
        | none => exact ⟨_, by unfold resolve_pair_conds; rw [hfrom]⟩
        | some f =>
          cases hto : Table.getColumn jt cp.to_column with
          | none => exact ⟨_, by unfold resolve_pair_conds; rw [hfrom, hto]⟩
          | some t =>
            obtain ⟨e, he⟩ := ih.2 ⟨cp2, hmem2, hbad⟩
            exact ⟨e, by unfold resolve_pair_conds; rw [hfrom, hto, he]⟩

/-- On success, the join-condition loop produces exactly one equality
condition per pair, in order. -/
theorem resolve_pair_conds_forall2 (table jt : Table) :
    ∀ (cps : List ColumnPair) (conds : List Expr),
      resolve_pair_conds table jt cps = .ok conds →
      List.Forall₂ (fun cp e => ∃ f t, Table.getColumn table cp.from_column = some f
        ∧ Table.getColumn jt cp.to_column = some t ∧ e = Expr.eqCols f t) cps conds := by
  intro cps
  induction cps with
  | nil => intro conds h; cases h; exact List.Forall₂.nil
  | cons cp rest ih =>
    intro conds h
    unfold resolve_pair_conds at h
    cases hfrom : Table.getColumn table cp.from_column with
    | none => rw [hfrom] at h; cases h
    | some f =>
      rw [hfrom] at h
      cases hto : Table.getColumn jt cp.to_column with
      | none => rw [hto] at h; cases h
      | some t =>
        rw [hto] at h
        cases hrec : resolve_pair_conds table jt rest with
        | error e => rw [hrec] at h; cases h
        | ok es =>
          rw [hrec] at h
          cases h
          exact List.Forall₂.cons ⟨f, t, hfrom, hto, rfl⟩ (ih es hrec)

/-- Lemma: `apply_join` with a target table missing from the catalog raises the
missing-table `ValueError`. -/
theorem apply_join_missing_table (q : Select) (tables : Tables) (table : Table) (j : TableJoin)
    (h : alistLookup j.table_name tables = none) :
    apply_join q tables table j = .error (.valueErrorMsg (joinTableMsg j.table_name)) := by
  unfold apply_join
  rw [h]

/-- Lemma: `apply_join` with all pairs resolving attaches the join clause. -/
theorem apply_join_ok (q : Select) (tables : Tables) (table : Table) (j : TableJoin)
    (jt : Table) (conds : List Expr)
    (hjt : alistLookup j.table_name tables = some jt)
    (hc : resolve_pair_conds table jt j.column_pairs = .ok conds) :
    apply_join q tables table j = .ok {q with join := some ⟨jt, andAll conds, j.outer_join⟩} := by
  simp only [apply_join, hjt, hc, sql_and_clauses]

/-- A first pair with a missing source column raises the missing-column
`ValueError` naming that column and the primary table. -/
theorem apply_join_first_from_missing (q : Select) (tables : Tables) (table : Table)
    (j : TableJoin) (jt : Table) (cp : ColumnPair) (cps : List ColumnPair)
    (hjt : alistLookup j.table_name tables = some jt)
    (hpairs : j.column_pairs = cp :: cps)
    (hfrom : Table.getColumn table cp.from_column = none) :
    apply_join q tables table j
      = .error (.valueErrorMsg (joinColMsg cp.from_column table.name)) := by
  simp only [apply_join, hjt, hpairs, resolve_pair_conds, hfrom]

/-- A first pair with a missing target column raises the missing-column
`ValueError` naming that column and the target table. -/
theorem apply_join_first_to_missing (q : Select) (tables : Tables) (table : Table)
    (j : TableJoin) (jt : Table) (cp : ColumnPair) (cps : List ColumnPair) (f : Column)
    (hjt : alistLookup j.table_name tables = some jt)
    (hpairs : j.column_pairs = cp :: cps)
    (hfrom : Table.getColumn table cp.from_column = some f)
    (hto : Table.getColumn jt cp.to_column = none) :
    apply_join q tables table j
      = .error (.valueErrorMsg (joinColMsg cp.to_column jt.name)) := by
  simp only [apply_join, hjt, hpairs, resolve_pair_conds, hfrom, hto]

/-- Lemma: `apply_join` fails exactly when the target table is missing or some
pair references a missing column. -/
theorem apply_join_error_iff (q : Select) (tables : Tables) (table : Table) (j : TableJoin) :
    (∃ e, apply_join q tables table j = .error e) ↔
      alistLookup j.table_name tables = none
      ∨ ∃ jt, alistLookup j.table_name tables = some jt
          ∧ ∃ cp ∈ j.column_pairs, Table.getColumn table cp.from_column = none
              ∨ Table.getColumn jt cp.to_column = none := by
  cases hjt : alistLookup j.table_name tables with
  | none => simp [apply_join_missing_table q tables table j hjt]
  | some jt =>
    constructor
    · rintro ⟨e, he⟩
      unfold apply_join at he
      rw [hjt] at he
      cases hc : resolve_pair_conds table jt j.column_pairs with
      | error e2 =>
        exact Or.inr ⟨jt, rfl, (resolve_pair_conds_error_iff table jt j.column_pairs).1 ⟨e2, hc⟩⟩
      | ok conds => simp [hc, sql_and_clauses] at he
    · intro hr
      cases hr with
      | inl h => cases h
      | inr h =>
        obtain ⟨jt2, hjt2, hbad⟩ := h
        cases hjt2
        obtain ⟨e, he⟩ := (resolve_pair_conds_error_iff table jt j.column_pairs).2 hbad
        exact ⟨e, by simp only [apply_join, hjt, he]⟩

/-- Lemma: `apply_join` with a failing condition loop propagates its error. -/
theorem apply_join_resolve_error (q : Select) (tables : Tables) (table : Table) (j : TableJoin)
    (jt : Table) (e2 : QueryError)
    (hjt : alistLookup j.table_name tables = some jt)
    (hc : resolve_pair_conds table jt j.column_pairs = .error e2) :
    apply_join q tables table j = .error e2 := by
  simp only [apply_join, hjt, hc]

/-- The error behavior of `apply_join` does not depend on the query. -/
theorem apply_join_error_indep (tables : Tables) (table : Table) (j : TableJoin)
    (e : QueryError) (q q2 : Select) (h : apply_join q tables table j = .error e) :
    apply_join q2 tables table j = .error e := by
  cases hjt : alistLookup j.table_name tables with
  | none =>
    rw [apply_join_missing_table q tables table j hjt] at h
    rw [apply_join_missing_table q2 tables table j hjt]
    exact h
  | some jt =>
    cases hc : resolve_pair_conds table jt j.column_pairs with
    | error e2 =>
      rw [apply_join_resolve_error q tables table j jt e2 hjt hc] at h
      rw [apply_join_resolve_error q2 tables table j jt e2 hjt hc]
      exact h
    | ok conds =>
      rw [apply_join_ok q tables table j jt conds hjt hc] at h
      cases h

/-- A failing join aborts the whole `query_table` call with the same
error (stated with no filters, which run before the join). -/
theorem query_table_join_error (db : Database) (meta : Tables) (tn : String) (table : Table)
    (names : Option (List String)) (page pp : Int) (ss : Option (List ColumnSort))
    (j : TableJoin) (e : QueryError) (q : Select)
    (hl : alistLookup tn meta = some table)
    (hc : (resolvedColumns meta table names).isEmpty = false)
    (hj : apply_join q meta table j = .error e) :
    query_table db meta tn names page pp none ss (some j) = .error e := by
  unfold query_table
  rw [hl]
  simp only [hc, Bool.false_eq_true, if_false]
  simp only [query_table_rest, apply_filters_opt, apply_join_opt]
  rw [apply_join_error_indep meta table j e q _ hj]

/-! ### Helper lemmas: projection resolution -/

/-- An unresolvable projection name is dropped. -/
theorem names_to_columns_drop (tabs : Option Tables) (cols : List Column) (nm : String)
    (h : resolve_name tabs cols nm = none) (n₁ n₂ : List String) :
    names_to_columns (n₁ ++ nm :: n₂) cols tabs = names_to_columns (n₁ ++ n₂) cols tabs := by
  simp [names_to_columns, List.filterMap_append, List.filterMap_cons, h]

/-- With a non-empty catalog supplied, a name whose dot-split (after
stripping) does not have exactly two parts resolves to nothing. -/
theorem resolve_name_not_two_parts (tables : Tables) (cols : List Column) (nm : String)
    (hne : tables.isEmpty = false)
    (h : ((pySplit '.' nm).map pyStrip).length ≠ 2) :
    resolve_name (some tables) cols nm = none := by
  unfold resolve_name
  simp only [hne, Bool.false_eq_true, if_false]
  split
  · next tn cn heq => exact absurd (by rw [heq]; rfl) h
  · rfl

/-- A projection name that does not split into exactly two parts is
dropped from the query: the call behaves as if the name were absent. -/
theorem query_table_drop_unqualified (db : Database) (meta : Tables) (tn : String)
    (names₁ names₂ : List String) (nm : String) (page pp : Int)
    (fs : Option (List (String × List ColumnFilter))) (ss : Option (List ColumnSort))
    (j : Option TableJoin)
    (h : ((pySplit '.' nm).map pyStrip).length ≠ 2) :
    query_table db meta tn (some (names₁ ++ nm :: names₂)) page pp fs ss j
      = query_table db meta tn (some (names₁ ++ names₂)) page pp fs ss j := by
  cases hl : alistLookup tn meta with
  | none => unfold query_table; rw [hl]
  | some table =>
    have hne : meta.isEmpty = false := by
      cases meta with
      | nil => cases hl
      | cons hd tl => rfl
    have hr : resolve_name (some meta) table.columns nm = none :=
      resolve_name_not_two_parts meta table.columns nm hne h
    have hcols : resolvedColumns meta table (some (names₁ ++ nm :: names₂))
        = resolvedColumns meta table (some (names₁ ++ names₂)) := by
      simp only [resolvedColumns]
      exact names_to_columns_drop _ _ _ hr names₁ names₂
    simp only [query_table, hl, hcols]

/-- An explicit projection that resolves to nothing short-circuits to a
bare empty result, whatever the database contains. -/
theorem query_table_empty_projection (db : Database) (meta : Tables) (tn : String)
    (table : Table) (names : List String) (page pp : Int)
    (fs : Option (List (String × List ColumnFilter))) (ss : Option (List ColumnSort))
    (j : Option TableJoin)
    (hl : alistLookup tn meta = some table)
    (h : names_to_columns names table.columns (some meta) = []) :
    query_table db meta tn (some names) page pp fs ss j = .ok (.bare []) := by
  unfold query_table
  rw [hl]
  simp [resolvedColumns, h]

/-! ### Claim theorems -/

/-- C1 (code bug): the spec (and the source's own comment) say that two or
more valid filters on one column are OR'ed into the WHERE clause, but
`apply_column_filters` passes the Python list itself to `or_` instead of
unpacking it, so SQLAlchemy raises `ArgumentError` and the whole query
aborts.  At the spec's own example — filters `{age: [gt 30, lt 18]}` on an
integer column — both filters bind and produce expressions, yet `or_`
receives the two-element list as a single argument and the query errors
instead of filtering `age > 30 OR age < 18`. -/
theorem c1_multiple_filters_on_column_abort :
    get_filter_expressions ageCol [⟨"age", .gt, "30", none⟩, ⟨"age", .lt, "18", none⟩]
      = .ok [.gt ageCol (.int 30), .lt ageCol (.int 18)]
    ∧ sql_or [ClauseArg.clauseList [.gt ageCol (.int 30), .lt ageCol (.int 18)]]
      = .error .argumentError
    ∧ apply_column_filters tableA baseSelect
        [("age", [⟨"age", .gt, "30", none⟩, ⟨"age", .lt, "18", none⟩])] = .error .argumentError
    ∧ query_table exDb exMeta "A" none 0 (-1)
        (some [("age", [⟨"age", .gt, "30", none⟩, ⟨"age", .lt, "18", none⟩])]) none none
      = .error .argumentError :=
  ⟨rfl, rfl, rfl, rfl⟩

/-- C2 (counterexample): because `query_table` always supplies the full
catalog to `names_to_columns`, the unqualified projection name `"name"` is
not resolved against the table's own columns — its dot-split has one part,
the tuple unpacking raises, and the name is dropped.  Projecting
`{"name", "other_table.label"}` across a join therefore yields rows keyed
only `"other_table.label"`, not `{"A.name", "other_table.label"}`. -/
theorem c2_counterexample_unqualified_name_dropped :
    query_table c2Db exMeta "A" (some ["name", "other_table.label"]) 0 (-1) none none
        (some c2Join)
      = .ok (.pair [[("other_table.label", .str "L")]]
          [⟨"label", false, true, .text, "other_table"⟩])
    ∧ names_to_columns ["name"] tableA.columns (some exMeta) = []
    ∧ ([("other_table.label", Value.str "L")] : Row).map Prod.fst = ["other_table.label"] :=
  ⟨rfl, rfl, rfl⟩

/-- C2 (amended): with an explicit projection, every name is parsed as
`table.column` against the full catalog (the catalog is always supplied):
a name whose dot-split (after stripping) does not have exactly two parts —
in particular any unqualified name — resolves to nothing and is dropped
from the call, while a two-part name is looked up as table then column;
consequently projecting `{"name", "other_table.label"}` across a join
produces rows keyed exactly `"other_table.label"`. -/
theorem c2_projection_resolution :
    (∀ db meta tn names₁ names₂ nm page pp fs ss j,
      ((pySplit '.' nm).map pyStrip).length ≠ 2 →
      query_table db meta tn (some (names₁ ++ nm :: names₂)) page pp fs ss j
        = query_table db meta tn (some (names₁ ++ names₂)) page pp fs ss j)
    ∧ (∀ tables cols nm tn2 cn, tables.isEmpty = false →
      (pySplit '.' nm).map pyStrip = [tn2, cn] →
      resolve_name (some tables) cols nm
        = getColumnOf (((alistLookup tn2 tables).map Table.columns).getD []) cn)
    ∧ query_table c2Db exMeta "A" (some ["name", "other_table.label"]) 0 (-1) none none
        (some c2Join)
      = .ok (.pair [[("other_table.label", .str "L")]]
          [⟨"label", false, true, .text, "other_table"⟩]) := by
  refine ⟨?_, ?_, rfl⟩
  · intro db meta tn names₁ names₂ nm page pp fs ss j h
    exact query_table_drop_unqualified db meta tn names₁ names₂ nm page pp fs ss j h
  · intro tables cols nm tn2 cn hne hsplit
    unfold resolve_name
    simp only [hne, Bool.false_eq_true, if_false, hsplit]

/-- Witness for C2's amended theorem at concrete inputs. -/
theorem c2_witness :
    query_table c2Db exMeta "A" (some ["name", "other_table.label"]) 0 (-1) none none
        (some c2Join)
      = query_table c2Db exMeta "A" (some ["other_table.label"]) 0 (-1) none none (some c2Join)
    ∧ resolve_name (some exMeta) tableA.columns "other_table.label"
      = getColumnOf (((alistLookup "other_table" exMeta).map Table.columns).getD []) "label" :=
  ⟨c2_projection_resolution.1 c2Db exMeta "A" [] ["other_table.label"] "name" 0 (-1) none none
      (some c2Join) (by decide),
   c2_projection_resolution.2.1 exMeta tableA.columns "other_table.label" "other_table" "label"
      rfl (by decide)⟩

/-- C3: a filters entry on a column that is not on the table, a filter
whose raw value fails to coerce against the resolved column's type, and a
sort on a column that is not on the table, are each silently omitted: the
call returns exactly what the identical call without that entry returns. -/
theorem c3_invalid_entries_are_noops :
    (∀ db meta tn table names page pp F₁ F₂ bad fl ss j,
      alistLookup tn meta = some table → Table.getColumn table bad = none →
      query_table db meta tn names page pp (some (F₁ ++ (bad, fl) :: F₂)) ss j
        = query_table db meta tn names page pp (some (F₁ ++ F₂)) ss j)
    ∧ (∀ db meta tn table names page pp F₁ F₂ cname col l₁ l₂ cf ss j,
      alistLookup tn meta = some table → Table.getColumn table cname = some col →
      set_column_value cf col = none →
      query_table db meta tn names page pp (some (F₁ ++ (cname, l₁ ++ cf :: l₂) :: F₂)) ss j
        = query_table db meta tn names page pp (some (F₁ ++ (cname, l₁ ++ l₂) :: F₂)) ss j)
    ∧ (∀ db meta tn table names page pp fs S₁ S₂ bad dir j,
      alistLookup tn meta = some table → Table.getColumn table bad = none →
      query_table db meta tn names page pp fs (some (S₁ ++ ⟨bad, dir⟩ :: S₂)) j
        = query_table db meta tn names page pp fs (some (S₁ ++ S₂)) j) := by
  refine ⟨?_, ?_, ?_⟩
  · intro db meta tn table names page pp F₁ F₂ bad fl ss j hl hb
    exact query_table_filters_congr db meta tn table names page pp _ _ ss j hl
      (fun q => apply_column_filters_skip table bad fl hb F₁ F₂ q)
  · intro db meta tn table names page pp F₁ F₂ cname col l₁ l₂ cf ss j hl hcol hset
    exact query_table_filters_congr db meta tn table names page pp _ _ ss j hl
      (fun q => apply_column_filters_drop_filter table cname col hcol cf hset l₁ l₂ F₁ F₂ q)
  · intro db meta tn table names page pp fs S₁ S₂ bad dir j hl hb
    exact query_table_sorts_congr db meta tn table names page pp fs _ _ j hl
      (fun q => apply_column_sorts_skip table bad dir hb S₁ S₂ q)

/-- Witness for C3 at concrete inputs: an unknown filter column, an
integer filter with raw value `"abc"`, and an unknown sort column. -/
theorem c3_witness :
    query_table exDb exMeta "A" none 0 (-1) (some [("zzz", [⟨"zzz", .eq, "1", none⟩])]) none none
      = query_table exDb exMeta "A" none 0 (-1) (some []) none none
    ∧ query_table exDb exMeta "A" none 0 (-1)
        (some [("age", [⟨"age", .gt, "30", none⟩, ⟨"age", .eq, "abc", none⟩])]) none none
      = query_table exDb exMeta "A" none 0 (-1)
          (some [("age", [⟨"age", .gt, "30", none⟩])]) none none
    ∧ query_table exDb exMeta "A" none 0 (-1) none (some [⟨"zzz", "asc"⟩]) none
      = query_table exDb exMeta "A" none 0 (-1) none (some []) none :=
  ⟨c3_invalid_entries_are_noops.1 exDb exMeta "A" tableA none 0 (-1) [] [] "zzz"
      [⟨"zzz", .eq, "1", none⟩] none none rfl rfl,
   c3_invalid_entries_are_noops.2.1 exDb exMeta "A" tableA none 0 (-1) [] [] "age" ageCol
      [⟨"age", .gt, "30", none⟩] [] ⟨"age", .eq, "abc", none⟩ none none rfl rfl rfl,
   c3_invalid_entries_are_noops.2.2 exDb exMeta "A" tableA none 0 (-1) none [] [] "zzz" "asc"
      none rfl rfl⟩

/-- C4: `bt`/`nbt` filters consume their two coerced values in the order
supplied with no implicit swap — the first split value is always the lower
bound position — so `bt` with raw `"10;5"` on an integer column builds the
literal `column BETWEEN 10 AND 5`, a predicate that no row satisfies. -/
theorem c4_between_order_preserved :
    (∀ (col : Column) (n u : String) (va vb : Value),
      convert_all col.ty (pySplit ';' u) = some [va, vb] →
      get_filter_expression col ⟨n, .bt, u, none⟩ = .ok (some (.between col va vb false))
      ∧ get_filter_expression col ⟨n, .nbt, u, none⟩
          = .ok (some (.notE (.between col va vb false))))
    ∧ (∀ (col : Column) (n : String), col.ty = .int →
      get_filter_expression col ⟨n, .bt, "10;5", none⟩
        = .ok (some (.between col (.int 10) (.int 5) false)))
    ∧ (∀ (col : Column) (r : Row),
      evalExpr (.between col (.int 10) (.int 5) false) r = false) := by
  refine ⟨fun col n u va vb h => ⟨get_filter_expression_bt_pair col n u va vb h,
    get_filter_expression_nbt_pair col n u va vb h⟩, ?_, ?_⟩
  · intro col n hty
    exact get_filter_expression_bt_pair col n "10;5" (.int 10) (.int 5) (by rw [hty]; rfl)
  · intro col r
    have hred : evalExpr (.between col (.int 10) (.int 5) false) r
        = (valLe (.int 10) (rowVal r col) && valLe (rowVal r col) (.int 5)) := rfl
    rw [hred]
    cases hx : rowVal r col with
    | null => rfl
    | bool b => rfl
    | int m =>
      by_cases h10 : (10 : Int) ≤ m
      · have h5 : ¬ (m ≤ (5 : Int)) := by omega
        simp [valLe, h5]
      · simp [valLe, h10]
    | str s2 => rfl

/-- Witness for C4 at concrete inputs. -/
theorem c4_witness :
    get_filter_expression ageCol ⟨"age", .bt, "10;5", none⟩
      = .ok (some (.between ageCol (.int 10) (.int 5) false))
    ∧ get_filter_expression ageCol ⟨"age", .nbt, "10;5", none⟩
      = .ok (some (.notE (.between ageCol (.int 10) (.int 5) false)))
    ∧ evalExpr (.between ageCol (.int 10) (.int 5) false) (rowA 25 "open" "w" 1) = false :=
  ⟨(c4_between_order_preserved.1 ageCol "age" "10;5" (.int 10) (.int 5) rfl).1,
   (c4_between_order_preserved.1 ageCol "age" "10;5" (.int 10) (.int 5) rfl).2,
   c4_between_order_preserved.2.2 ageCol (rowA 25 "open" "w" 1)⟩

/-- C5: with the sentinel page size −1 no limit or offset is applied and
the result is independent of the page index; with a non-negative page size
the call returns exactly the `page * page_size` offset / `page_size` limit
slice of the rows the same call returns unpaged (so page size 10, page 2
returns rows 21–30 of the ordered, filtered result), with the same column
descriptors. -/
theorem c5_pagination :
    (∀ db meta tn names p1 p2 fs ss j,
      query_table db meta tn names p1 (-1) fs ss j
        = query_table db meta tn names p2 (-1) fs ss j)
    ∧ (∀ db meta tn names page pp fs ss j rows cols, 0 ≤ pp →
      query_table db meta tn names 0 (-1) fs ss j = .ok (.pair rows cols) →
      query_table db meta tn names page pp fs ss j
        = .ok (.pair ((rows.drop (page * pp).toNat).take pp.toNat) cols)) := by
  constructor
  · intro db meta tn names p1 p2 fs ss j
    cases hl : alistLookup tn meta with
    | none => unfold query_table; rw [hl]
    | some table =>
      simp only [query_table, hl, query_table_rest, build_paged_unlimited]
  · intro db meta tn names page pp fs ss j rows cols hpp href
    cases hl : alistLookup tn meta with
    | none =>
      unfold query_table at href
      rw [hl] at href
      cases href
    | some table =>
      simp only [query_table, hl] at href ⊢
      by_cases hc : (resolvedColumns meta table names).isEmpty = true
      · rw [if_pos hc] at href
        simp at href
      · rw [if_neg hc] at href ⊢
        exact query_table_rest_paged db meta table _ page pp fs ss j rows cols hpp href

/-- Witness for C5: page index irrelevant at −1, and page 1 of size 2
returns rows 3–4 of the unpaged result. -/
theorem c5_witness :
    query_table exDb exMeta "A" none 3 (-1) none none none
      = query_table exDb exMeta "A" none 0 (-1) none none none
    ∧ query_table exDb exMeta "A" none 1 2 none none none
      = .ok (.pair ((([rowA 25 "open" "w" 1, rowA 35 "active" "x" 1, rowA 10 "closed" "y" 2,
          rowA 50 "active" "z" 9].drop ((1 * 2 : Int)).toNat).take ((2 : Int)).toNat))
          (tableA.columns.map column_to_dict)) :=
  ⟨c5_pagination.1 exDb exMeta "A" none 3 0 none none none,
   c5_pagination.2 exDb exMeta "A" none 1 2 none none none _ _ (by decide) rfl⟩

/-- C6: `apply_join` fails with a `ValueError` naming the offending table
or column exactly when the target table is absent from the catalog or some
pair references a missing column; otherwise it attaches the target table
with an ON clause that ANDs one equality condition per pair in order, as
an outer join iff the flag is set; and a failing join aborts the whole
`query_table` call with the same error. -/
theorem c6_apply_join :
    (∀ q tables table j, (∃ e, apply_join q tables table j = .error e) ↔
        alistLookup j.table_name tables = none
        ∨ ∃ jt, alistLookup j.table_name tables = some jt
            ∧ ∃ cp ∈ j.column_pairs, Table.getColumn table cp.from_column = none
                ∨ Table.getColumn jt cp.to_column = none)
    ∧ (∀ q tables table j, alistLookup j.table_name tables = none →
        apply_join q tables table j = .error (.valueErrorMsg (joinTableMsg j.table_name)))
    ∧ (∀ q tables table j jt cp cps, alistLookup j.table_name tables = some jt →
        j.column_pairs = cp :: cps → Table.getColumn table cp.from_column = none →
        apply_join q tables table j
          = .error (.valueErrorMsg (joinColMsg cp.from_column table.name)))
    ∧ (∀ q tables table j jt cp cps f, alistLookup j.table_name tables = some jt →
        j.column_pairs = cp :: cps → Table.getColumn table cp.from_column = some f →
        Table.getColumn jt cp.to_column = none →
        apply_join q tables table j
          = .error (.valueErrorMsg (joinColMsg cp.to_column jt.name)))
    ∧ (∀ q tables table j jt conds, alistLookup j.table_name tables = some jt →
        resolve_pair_conds table jt j.column_pairs = .ok conds →
        apply_join q tables table j
          = .ok {q with join := some ⟨jt, andAll conds, j.outer_join⟩}
        ∧ List.Forall₂ (fun cp e => ∃ f t, Table.getColumn table cp.from_column = some f
            ∧ Table.getColumn jt cp.to_column = some t ∧ e = Expr.eqCols f t)
            j.column_pairs conds)
    ∧ (∀ db meta tn table names page pp ss j e q, alistLookup tn meta = some table →
        (resolvedColumns meta table names).isEmpty = false →
        apply_join q meta table j = .error e →
        query_table db meta tn names page pp none ss (some j) = .error e) :=
  ⟨fun q tables table j => apply_join_error_iff q tables table j,
   fun q tables table j h => apply_join_missing_table q tables table j h,
   fun q tables table j jt cp cps h1 h2 h3 =>
     apply_join_first_from_missing q tables table j jt cp cps h1 h2 h3,
   fun q tables table j jt cp cps f h1 h2 h3 h4 =>
     apply_join_first_to_missing q tables table j jt cp cps f h1 h2 h3 h4,
   fun q tables table j jt conds h1 h2 =>
     ⟨apply_join_ok q tables table j jt conds h1 h2,
      resolve_pair_conds_forall2 table jt j.column_pairs conds h2⟩,
   fun db meta tn table names page pp ss j e q h1 h2 h3 =>
     query_table_join_error db meta tn table names page pp ss j e q h1 h2 h3⟩

/-- Witness for C6 at concrete inputs: a missing table, a missing column,
a successful join, and the abort of the whole query. -/
theorem c6_witness :
    apply_join baseSelect exMeta tableA ⟨"missing", [], false⟩
      = .error (.valueErrorMsg (joinTableMsg "missing"))
    ∧ apply_join baseSelect exMeta tableA ⟨"other_table", [⟨"zzz", "id"⟩], false⟩
      = .error (.valueErrorMsg (joinColMsg "zzz" "A"))
    ∧ apply_join baseSelect exMeta tableA c2Join
      = .ok {baseSelect with join := some ⟨tableO, andAll [Expr.eqCols bidCol idCol], false⟩}
    ∧ query_table exDb exMeta "A" none 0 (-1) none none (some ⟨"missing", [], false⟩)
      = .error (.valueErrorMsg (joinTableMsg "missing")) :=
  ⟨c6_apply_join.2.1 baseSelect exMeta tableA ⟨"missing", [], false⟩ rfl,
   c6_apply_join.2.2.1 baseSelect exMeta tableA ⟨"other_table", [⟨"zzz", "id"⟩], false⟩ tableO
      ⟨"zzz", "id"⟩ [] rfl rfl rfl,
   (c6_apply_join.2.2.2.2.1 baseSelect exMeta tableA c2Join tableO [Expr.eqCols bidCol idCol]
      rfl rfl).1,
   c6_apply_join.2.2.2.2.2 exDb exMeta "A" tableA none 0 (-1) none ⟨"missing", [], false⟩ _
      baseSelect rfl rfl
      (c6_apply_join.2.1 baseSelect exMeta tableA ⟨"missing", [], false⟩ rfl)⟩

/-- C7: with an explicit projection, names that resolve to no column are
dropped, and whenever the resolved projection is empty the call returns
the empty result immediately — for every database, so no query is
executed. -/
theorem c7_empty_projection_short_circuit :
    (∀ tabs cols nm n₁ n₂, resolve_name tabs cols nm = none →
      names_to_columns (n₁ ++ nm :: n₂) cols tabs = names_to_columns (n₁ ++ n₂) cols tabs)
    ∧ (∀ db meta tn table names page pp fs ss j,
      alistLookup tn meta = some table →
      names_to_columns names table.columns (some meta) = [] →
      query_table db meta tn (some names) page pp fs ss j = .ok (.bare [])) :=
  ⟨fun tabs cols nm n₁ n₂ h => names_to_columns_drop tabs cols nm h n₁ n₂,
   fun db meta tn table names page pp fs ss j hl h =>
     query_table_empty_projection db meta tn table names page pp fs ss j hl h⟩

/-- Witness for C7 at concrete inputs. -/
theorem c7_witness :
    names_to_columns ["other_table.label", "nope"] tableA.columns (some exMeta)
      = names_to_columns ["other_table.label"] tableA.columns (some exMeta)
    ∧ query_table exDb exMeta "A" (some ["zzz", "A.zzz"]) 5 7 none none none = .ok (.bare []) :=
  ⟨c7_empty_projection_short_circuit.1 (some exMeta) tableA.columns "nope"
      ["other_table.label"] [] rfl,
   c7_empty_projection_short_circuit.2 exDb exMeta "A" tableA ["zzz", "A.zzz"] 5 7 none none
      none rfl rfl⟩

/-- C8 (counterexample): a successful `query_table` call with an explicit
projection that resolves to nothing returns the bare Python list `[]`, not
a `(rows, column_data)` pair. -/
theorem c8_counterexample_bare_list :
    query_table exDb exMeta "A" (some ["zzz"]) 0 (-1) none none none = .ok (.bare []) := rfl

/-- C8 (amended): a successful `query_table` call whose resolved
projection is non-empty returns a pair of (i) the shaped rows — each row
mapping the qualified key `"<table>.<column>"` to its value, keys in
projection order — and (ii) the column descriptors of the projected
columns in projection order; a call whose resolved projection is empty
returns a bare empty list instead of a pair. -/
theorem c8_result_shape :
    (∀ (columns : List Column) (r : Row),
      (shape_row columns r).map Prod.fst = columns.map fullName)
    ∧ ∀ db meta tn table names page pp fs ss j,
        alistLookup tn meta = some table →
        ((resolvedColumns meta table names).isEmpty = true →
          query_table db meta tn names page pp fs ss j = .ok (.bare []))
        ∧ ((resolvedColumns meta table names).isEmpty = false →
          (∃ e, query_table db meta tn names page pp fs ss j = .error e)
          ∨ ∃ rawRows : List Row, query_table db meta tn names page pp fs ss j
              = .ok (.pair (rawRows.map (shape_row (resolvedColumns meta table names)))
                           ((resolvedColumns meta table names).map column_to_dict))) := by
  constructor
  · intro columns r
    simp [shape_row, List.map_map]
  · intro db meta tn table names page pp fs ss j hl
    constructor
    · intro hc
      simp only [query_table, hl, hc, if_true]
    · intro hc
      simp only [query_table, hl, hc, Bool.false_eq_true, if_false, query_table_rest]
      cases hf : apply_filters_opt table
          (build_paged ⟨resolvedColumns meta table names, table, [], [], none, none, none⟩
            page pp) fs with
      | error e => exact Or.inl ⟨e, rfl⟩
      | ok q2 =>
        dsimp only
        cases hj : apply_join_opt meta table (apply_sorts_opt table q2 ss) j with
        | error e => exact Or.inl ⟨e, rfl⟩
        | ok q4 => exact Or.inr ⟨execSelect db q4, rfl⟩

/-- Witness for C8's amended theorem at concrete inputs. -/
theorem c8_witness :
    (shape_row tableA.columns (rowA 25 "open" "w" 1)).map Prod.fst
      = tableA.columns.map fullName
    ∧ query_table exDb exMeta "A" (some ["zzz"]) 0 (-1) none none none = .ok (.bare [])
    ∧ ((∃ e, query_table exDb exMeta "A" none 0 (-1) none none none = .error e)
       ∨ ∃ rawRows : List Row, query_table exDb exMeta "A" none 0 (-1) none none none
          = .ok (.pair (rawRows.map (shape_row (resolvedColumns exMeta tableA none)))
                       ((resolvedColumns exMeta tableA none).map column_to_dict))) :=
  ⟨c8_result_shape.1 tableA.columns (rowA 25 "open" "w" 1),
   (c8_result_shape.2 exDb exMeta "A" tableA (some ["zzz"]) 0 (-1) none none none rfl).1 rfl,
   (c8_result_shape.2 exDb exMeta "A" tableA none 0 (-1) none none none rfl).2 rfl⟩

/-- C9: coercion against a boolean column lowers the text and compares it
to the literal `"true"` — so `"1"` coerces to `false`, `"True"`/`"TRUE"`
coerce to `true` — and it never fails. -/
theorem c9_boolean_coercion :
    (∀ s : String, convert_url_value s .bool = some (.bool (decide (pyLower s = "true"))))
    ∧ convert_url_value "1" .bool = some (.bool false)
    ∧ convert_url_value "True" .bool = some (.bool true)
    ∧ convert_url_value "TRUE" .bool = some (.bool true)
    ∧ convert_url_value "yes" .bool = some (.bool false) :=
  ⟨fun _ => rfl, rfl, rfl, rfl, rfl⟩

/-- C10 (counterexample): a `bt` filter whose raw text splits into three
elements that all coerce is *not* an error: the third coerced value lands
in `between`'s `symmetric` keyword slot, a symmetric between-expression is
built, and the query runs to completion instead of aborting. -/
theorem c10_counterexample_three_values :
    get_filter_expression ageCol ⟨"age", .bt, "1;2;3", none⟩
      = .ok (some (.between ageCol (.int 1) (.int 2) true))
    ∧ query_table exDb exMeta "A" none 0 (-1)
        (some [("age", [⟨"age", .bt, "1;2;3", none⟩])]) none none
      = .ok (.pair [] (tableA.columns.map column_to_dict)) :=
  ⟨rfl, rfl⟩

/-- C10 (amended): a `bt`/`nbt` filter whose raw text splits into `n ≠ 2`
elements that all coerce is not dropped by the lenient policy — binding
succeeds — and for `n = 1` or `n ≥ 4` building the between-expression
raises a `TypeError` outside the drop guard, aborting the query; but for
`n = 3` the third coerced value is consumed as `between`'s `symmetric`
flag and a between-expression over the first two values is built with no
error. -/
theorem c10_between_arity :
    (∀ (col : Column) (n u : String) (vs : List Value),
      convert_all col.ty (pySplit ';' u) = some vs →
      (vs.length = 1 ∨ 4 ≤ vs.length) →
      get_filter_expression col ⟨n, .bt, u, none⟩ = .error .typeError
      ∧ get_filter_expression col ⟨n, .nbt, u, none⟩ = .error .typeError)
    ∧ (∀ (col : Column) (n u : String) (va vb vc : Value),
      convert_all col.ty (pySplit ';' u) = some [va, vb, vc] →
      get_filter_expression col ⟨n, .bt, u, none⟩
        = .ok (some (.between col va vb (truthy vc))))
    ∧ (∀ db meta tn table names page pp ss cname col n u vs,
      alistLookup tn meta = some table →
      Table.getColumn table cname = some col →
      convert_all col.ty (pySplit ';' u) = some vs →
      (vs.length = 1 ∨ 4 ≤ vs.length) →
      (resolvedColumns meta table names).isEmpty = false →
      query_table db meta tn names page pp (some [(cname, [⟨n, .bt, u, none⟩])]) ss none
        = .error .typeError) := by
  refine ⟨fun col n u vs h hlen => ⟨get_filter_expression_bt_bad_arity col n u vs h hlen,
    get_filter_expression_nbt_bad_arity col n u vs h hlen⟩,
    fun col n u va vb vc h => get_filter_expression_bt_three col n u va vb vc h, ?_⟩
  intro db meta tn table names page pp ss cname col n u vs hl hcol hconv hlen hc
  simp only [query_table, hl, hc, Bool.false_eq_true, if_false, query_table_rest,
    apply_filters_opt, apply_column_filters, hcol, get_filter_expressions,
    get_filter_expression_bt_bad_arity col n u vs hconv hlen]

/-- Witness for C10's amended theorem at concrete inputs: one value and
four values abort, three values build a symmetric between. -/
theorem c10_witness :
    get_filter_expression ageCol ⟨"age", .bt, "7", none⟩ = .error .typeError
    ∧ get_filter_expression ageCol ⟨"age", .nbt, "1;2;3;4", none⟩ = .error .typeError
    ∧ get_filter_expression ageCol ⟨"age", .bt, "1;2;0", none⟩
      = .ok (some (.between ageCol (.int 1) (.int 2) (truthy (.int 0))))
    ∧ query_table exDb exMeta "A" none 0 (-1)
        (some [("age", [⟨"age", .bt, "7", none⟩])]) none none = .error .typeError :=
  ⟨(c10_between_arity.1 ageCol "age" "7" [.int 7] rfl (Or.inl rfl)).1,
   (c10_between_arity.1 ageCol "age" "1;2;3;4" [.int 1, .int 2, .int 3, .int 4] rfl
      (Or.inr (by decide))).2,
   c10_between_arity.2.1 ageCol "age" "1;2;0" (.int 1) (.int 2) (.int 0) rfl,
   c10_between_arity.2.2 exDb exMeta "A" tableA none 0 (-1) none "age" ageCol "age" "7"
      [.int 7] rfl rfl rfl (Or.inl rfl) rfl⟩

end Grice
